import Mathlib

/-!
Verification development for the perocube data monitoring system.

The definitions below are a shallow embedding of the repository code:
* src/ingestion/labview_connector.py  (network ingestion path)
* src/data_processing/validators.py   (kind validators over tabular data)
* src/data_processing/transformers.py (normalizing transformers over tabular data)
* src/ingestion/upload_historical_data.py (batch import path)

Python dynamic values are modelled by the type PyVal, Python floats by the
rationals, datetime values by a calendar record, and pandas data frames by
association lists of dtype-tagged columns.  Fallible Python operations
(conversions that can raise, dictionary attribute access on non-dicts,
key selection on data frames) are modelled with Except, and an exception
caught by a try/except block in the source corresponds to matching on the
error case here.
-/

/-- Model of a Python/JSON dynamic value as produced by json.loads and
passed around by the connector. -/
inductive PyVal where
  | vNone
  | vBool (b : Bool)
  | vInt (n : ℤ)
  | vFloat (q : ℚ)
  | vStr (s : String)
  | vDict (kvs : List (String × PyVal))
  | vList (vs : List PyVal)

/-- Lookup of a key in a Python dict, returning the stored value when present. -/
def lookupKV (kvs : List (String × PyVal)) (k : String) : Option PyVal :=
  (kvs.find? (fun p => p.1 == k)).map (fun p => p.2)

/-- Python dict.get(k): returns None when the key is absent. -/
def dGet (kvs : List (String × PyVal)) (k : String) : PyVal :=
  match lookupKV kvs k with
  | some v => v
  | Option.none => PyVal.vNone

/-- Python dict.get(k, default): returns the default when the key is absent. -/
def dGetD (kvs : List (String × PyVal)) (k : String) (d : PyVal) : PyVal :=
  match lookupKV kvs k with
  | some v => v
  | Option.none => d

/-- Python attribute-style .get(k, default) on a value that may not be a dict:
raises AttributeError on non-dicts. -/
def pyAttrGetD (v : PyVal) (k : String) (d : PyVal) : Except String PyVal :=
  match v with
  | .vDict kvs => .ok (dGetD kvs k d)
  | _ => .error "AttributeError"

/-- Python attribute-style .get(k) on a value that may not be a dict. -/
def pyAttrGet (v : PyVal) (k : String) : Except String PyVal :=
  match v with
  | .vDict kvs => .ok (dGet kvs k)
  | _ => .error "AttributeError"

/-- Python truthiness of a value, as used by the source line
if not data_type or not measurement. -/
def pyTruthy : PyVal → Bool
  | .vNone => false
  | .vBool b => b
  | .vInt n => n != 0
  | .vFloat q => q != 0
  | .vStr s => s != ""
  | .vDict kvs => !kvs.isEmpty
  | .vList vs => !vs.isEmpty

/-- Calendar timestamp, the model of a Python datetime value
(timezone-naive, whole seconds; the fragment the repository exchanges). -/
structure Timestamp where
  year : ℕ
  month : ℕ
  day : ℕ
  hour : ℕ
  minute : ℕ
  second : ℕ
deriving DecidableEq, Repr

/-- Number of days in a month, with the Gregorian leap year rule, as
validated by the datetime constructor. -/
def daysInMonth (y m : ℕ) : ℕ :=
  if m = 2 then (if (y % 4 = 0 ∧ y % 100 ≠ 0) ∨ y % 400 = 0 then 29 else 28)
  else if m = 4 ∨ m = 6 ∨ m = 9 ∨ m = 11 then 30 else 31

/-- The datetime constructor: range-checks every field and raises ValueError
on an out-of-range component. -/
def mkDatetime (y mo d h mi s : ℕ) : Except String Timestamp :=
  if 1 ≤ y ∧ y ≤ 9999 ∧ 1 ≤ mo ∧ mo ≤ 12 ∧ 1 ≤ d ∧ d ≤ daysInMonth y mo
      ∧ h ≤ 23 ∧ mi ≤ 59 ∧ s ≤ 59
  then .ok ⟨y, mo, d, h, mi, s⟩ else .error "ValueError"

/-- Two decimal digit characters to a number. -/
def num2 (a b : Char) : Option ℕ :=
  if a.isDigit ∧ b.isDigit then some (10 * (a.toNat - 48) + (b.toNat - 48))
  else Option.none

/-- Four decimal digit characters to a number. -/
def num4 (a b c d : Char) : Option ℕ :=
  match num2 a b, num2 c d with
  | some hi, some lo => some (100 * hi + lo)
  | _, _ => Option.none

/-- Time-of-day part of the ISO format accepted by datetime.fromisoformat:
HH:MM or HH:MM:SS (the fragment used by this repository, no fractions). -/
def parseIsoTime : List Char → Option (ℕ × ℕ × ℕ)
  | [h1, h2, ':', i1, i2] =>
    (match num2 h1 h2, num2 i1 i2 with
     | some h, some i => some (h, i, 0)
     | _, _ => Option.none)
  | [h1, h2, ':', i1, i2, ':', s1, s2] =>
    (match num2 h1 h2, num2 i1 i2, num2 s1 s2 with
     | some h, some i, some s => some (h, i, s)
     | _, _, _ => Option.none)
  | _ => Option.none

/-- Model of datetime.fromisoformat on strings: the strict pre-3.11 grammar
YYYY-MM-DD, optionally followed by a single separator character (any
character, commonly T or a space) and a time of day.  Anything else,
in particular slash-separated dates, raises ValueError. -/
def parseIso (s : String) : Except String Timestamp :=
  match s.data with
  | [y1, y2, y3, y4, '-', m1, m2, '-', d1, d2] =>
    (match num4 y1 y2 y3 y4, num2 m1 m2, num2 d1 d2 with
     | some y, some mo, some d => mkDatetime y mo d 0 0 0
     | _, _, _ => .error "ValueError")
  | y1 :: y2 :: y3 :: y4 :: '-' :: m1 :: m2 :: '-' :: d1 :: d2 :: _ :: rest =>
    (match num4 y1 y2 y3 y4, num2 m1 m2, num2 d1 d2, parseIsoTime rest with
     | some y, some mo, some d, some (h, mi, se) => mkDatetime y mo d h mi se
     | _, _, _, _ => .error "ValueError")
  | _ => .error "ValueError"

/-- datetime.fromisoformat applied to a dynamic value: requires a string
argument (fromisoformat(None) raises TypeError). -/
def datetime_fromisoformat (v : PyVal) : Except String Timestamp :=
  match v with
  | .vStr s => parseIso s
  | _ => .error "TypeError"

/-- Digits of a plain decimal string chunk (used by the model of the Python
float() and int() conversions on strings). -/
def readDigits : List Char → List ℕ × List Char
  | c :: rest =>
    if c.isDigit then
      let (ds, r) := readDigits rest
      ((c.toNat - 48) :: ds, r)
    else ([], c :: rest)
  | [] => ([], [])

/-- Value of a digit list, most significant first. -/
def natOfDigits (ds : List ℕ) : ℕ :=
  ds.foldl (fun a d => 10 * a + d) 0

/-- Model of Python float(s) on strings: optional sign and plain decimal
notation; other strings raise ValueError. -/
def pyFloatOfString (s : String) : Except String ℚ :=
  let (neg, cs) :=
    match s.data with
    | '-' :: r => (true, r)
    | '+' :: r => (false, r)
    | r => (false, r)
  match readDigits cs with
  | ([], _) => .error "ValueError"
  | (ds, rest) =>
    match rest with
    | [] =>
      let q : ℚ := natOfDigits ds
      .ok (if neg then -q else q)
    | '.' :: r2 =>
      (match readDigits r2 with
       | (fs, []) =>
         let q : ℚ := (natOfDigits ds : ℚ) + (natOfDigits fs : ℚ) / ((10 : ℚ) ^ fs.length)
         .ok (if neg then -q else q)
       | _ => .error "ValueError")
    | _ => .error "ValueError"

/-- Model of Python float(v): accepts ints, floats, bools and plain numeric
strings; raises TypeError on None, dicts and lists. -/
def pyFloat : PyVal → Except String ℚ
  | .vInt n => .ok (n : ℚ)
  | .vFloat q => .ok q
  | .vBool b => .ok (if b then 1 else 0)
  | .vStr s => pyFloatOfString s
  | _ => .error "TypeError"

/-- Model of Python int(v): ints pass through, floats truncate toward zero,
strings must be plain optionally signed digit strings. -/
def pyInt : PyVal → Except String ℤ
  | .vInt n => .ok n
  | .vFloat q => .ok (Int.tdiv q.num q.den)
  | .vBool b => .ok (if b then 1 else 0)
  | .vStr s =>
    (match s.data with
     | '-' :: r =>
       (match readDigits r with
        | (ds, []) => if ds.isEmpty then .error "ValueError" else .ok (-(natOfDigits ds : ℤ))
        | _ => .error "ValueError")
     | r =>
       (match readDigits r with
        | (ds, []) => if ds.isEmpty then .error "ValueError" else .ok (natOfDigits ds : ℤ)
        | _ => .error "ValueError"))
  | _ => .error "TypeError"

/-- One persisted database row, per kind, matching the three INSERT
statements of the connector and the importer. -/
inductive Row where
  | mpp (ts : Timestamp) (current voltage power : ℚ) (board channel : ℤ)
  | temperature (ts : Timestamp) (temperature : ℚ) (sensor : PyVal)
  | irradiance (ts : Timestamp) (raw : ℤ) (irr : ℚ) (sensor : PyVal)

/-- Body of LabVIEWConnector._store_mpp_measurement: field extraction with
defaults, in source order; any raised exception is caught by the
surrounding try and leads to a rollback (no row). -/
def mpp_row (m : List (String × PyVal)) (md : PyVal) : Except String Row := do
  let ts ← datetime_fromisoformat (dGet m "timestamp")
  let current ← pyFloat (dGetD m "current" (.vInt 0))
  let voltage ← pyFloat (dGetD m "voltage" (.vInt 0))
  let power ← pyFloat (dGetD m "power" (.vFloat (current * voltage)))
  let bv ← pyAttrGetD md "board" (.vInt 0)
  let board ← pyInt bv
  let cv ← pyAttrGetD md "channel" (.vInt 0)
  let channel ← pyInt cv
  pure (Row.mpp ts current voltage power board channel)

/-- LabVIEWConnector._store_mpp_measurement: the rows actually written
(one on success, none when an exception was caught and rolled back). -/
def store_mpp_measurement (measurement md : PyVal) : List Row :=
  match measurement with
  | .vDict m =>
    (match mpp_row m md with
     | .ok r => [r]
     | .error _ => [])
  | _ => []

/-- Body of LabVIEWConnector._store_temperature_measurement. -/
def temperature_row (m : List (String × PyVal)) (md : PyVal) : Except String Row := do
  let ts ← datetime_fromisoformat (dGet m "timestamp")
  let t ← pyFloat (dGetD m "temperature" (.vInt 0))
  let sid ← pyAttrGet md "sensor_id"
  pure (Row.temperature ts t sid)

/-- LabVIEWConnector._store_temperature_measurement. -/
def store_temperature_measurement (measurement md : PyVal) : List Row :=
  match measurement with
  | .vDict m =>
    (match temperature_row m md with
     | .ok r => [r]
     | .error _ => [])
  | _ => []

/-- Body of LabVIEWConnector._store_irradiance_measurement: note that a
missing irradiance field defaults to 0 and a missing raw_reading
defaults to 0; no derivation from raw_reading happens on this path. -/
def irradiance_row (m : List (String × PyVal)) (md : PyVal) : Except String Row := do
  let ts ← datetime_fromisoformat (dGet m "timestamp")
  let raw ← pyInt (dGetD m "raw_reading" (.vInt 0))
  let irr ← pyFloat (dGetD m "irradiance" (.vInt 0))
  let sid ← pyAttrGet md "sensor_id"
  pure (Row.irradiance ts raw irr sid)

/-- LabVIEWConnector._store_irradiance_measurement. -/
def store_irradiance_measurement (measurement md : PyVal) : List Row :=
  match measurement with
  | .vDict m =>
    (match irradiance_row m md with
     | .ok r => [r]
     | .error _ => [])
  | _ => []

/-- Dispatch part of LabVIEWConnector._process_message after json.loads:
extract type, data and metadata, return early on a falsy type or data,
then dispatch on the type string.  Every exception inside the store
helpers is caught there; a non-dict message raises AttributeError at the
first .get, caught by the outer except, so no row is written. -/
def process_decoded : PyVal → List Row
  | .vDict kvs =>
    let dataType := dGet kvs "type"
    let measurement := dGet kvs "data"
    let md := dGetD kvs "metadata" (.vDict [])
    if !pyTruthy dataType || !pyTruthy measurement then []
    else
      match dataType with
      | .vStr "mpp" => store_mpp_measurement measurement md
      | .vStr "temperature" => store_temperature_measurement measurement md
      | .vStr "irradiance" => store_irradiance_measurement measurement md
      | _ => []
  | _ => []

/-- Whitespace skipping of the JSON decoder. -/
def jSkipWs : List Char → List Char
  | c :: rest =>
    if c = ' ' ∨ c = '\t' ∨ c = '\n' ∨ c = '\r' then jSkipWs rest else c :: rest
  | [] => []

/-- JSON escape sequences after a backslash (the escape-free and simple-escape
fragment of the format; unicode escapes are outside the model). -/
def escChar : Char → Option Char
  | '\"' => some '\"'
  | '\\' => some '\\'
  | '/' => some '/'
  | 'n' => some '\n'
  | 't' => some '\t'
  | 'r' => some '\r'
  | 'b' => some (Char.ofNat 8)
  | 'f' => some (Char.ofNat 12)
  | _ => Option.none

/-- Reads the remainder of a JSON string literal after the opening quote. -/
def readStr : List Char → Option (String × List Char)
  | [] => Option.none
  | '\"' :: rest => some ("", rest)
  | '\\' :: rest =>
    (match rest with
     | [] => Option.none
     | e :: rest2 =>
       match escChar e with
       | some c =>
         (match readStr rest2 with
          | some (s, r) => some (String.mk (c :: s.data), r)
          | Option.none => Option.none)
       | Option.none => Option.none)
  | c :: rest =>
    (match readStr rest with
     | some (s, r) => some (String.mk (c :: s.data), r)
     | Option.none => Option.none)

/-- Reads a JSON number: optional minus, integer part, optional fraction,
optional exponent.  A number without fraction and exponent decodes to a
Python int, otherwise to a float. -/
def parseNum (cs : List Char) : Option (PyVal × List Char) :=
  let (neg, cs1) :=
    match cs with
    | '-' :: r => (true, r)
    | r => (false, r)
  match readDigits cs1 with
  | ([], _) => Option.none
  | (ds, cs2) =>
    let ipart : ℕ := natOfDigits ds
    let withExp (mag : ℚ) (isInt : Bool) (cs3 : List Char) : Option (PyVal × List Char) :=
      match cs3 with
      | 'e' :: r | 'E' :: r =>
        let (eneg, r1) :=
          match r with
          | '-' :: r2 => (true, r2)
          | '+' :: r2 => (false, r2)
          | r2 => (false, r2)
        (match readDigits r1 with
         | ([], _) => Option.none
         | (es, r2) =>
           let e := natOfDigits es
           let scaled := if eneg then mag / ((10 : ℚ) ^ e) else mag * ((10 : ℚ) ^ e)
           some (.vFloat (if neg then -scaled else scaled), r2))
      | _ =>
        if isInt then some (.vInt (if neg then -(ipart : ℤ) else (ipart : ℤ)), cs3)
        else some (.vFloat (if neg then -mag else mag), cs3)
    match cs2 with
    | '.' :: r =>
      (match readDigits r with
       | ([], _) => Option.none
       | (fs, cs3) =>
         let mag : ℚ := (ipart : ℚ) + (natOfDigits fs : ℚ) / ((10 : ℚ) ^ fs.length)
         withExp mag false cs3)
    | _ => withExp (ipart : ℚ) true cs2

/-- Inserting into a decoded JSON object: a repeated key overwrites the
earlier value in place, as a Python dict literal does. -/
def dictInsert (kvs : List (String × PyVal)) (k : String) (v : PyVal) : List (String × PyVal) :=
  match kvs with
  | [] => [(k, v)]
  | (k0, v0) :: rest =>
    if k0 == k then (k, v) :: rest else (k0, v0) :: dictInsert rest k v

/-- Intermediate output of the JSON decoder: a value, an object member list
or an array element list. -/
inductive JOut where
  | val (v : PyVal)
  | mems (kvs : List (String × PyVal))
  | elems (vs : List PyVal)

/-- Recursive core of the json.loads model.  The first argument is fuel
(structural recursion), the second selects the production: 0 parses one
value, 1 parses object members up to the closing brace, 2 parses array
elements up to the closing bracket. -/
def jsonCore : ℕ → ℕ → List Char → Option (JOut × List Char)
  | 0, _, _ => Option.none
  | Nat.succ f, 0, cs =>
    (match jSkipWs cs with
     | '\x7b' :: rest =>
       (match jSkipWs rest with
        | '\x7d' :: r2 => some (.val (.vDict []), r2)
        | r1 =>
          match jsonCore f 1 r1 with
          | some (.mems kvs, r2) =>
            some (.val (.vDict (kvs.foldl (fun a p => dictInsert a p.1 p.2) [])), r2)
          | _ => Option.none)
     | '[' :: rest =>
       (match jSkipWs rest with
        | ']' :: r2 => some (.val (.vList []), r2)
        | r1 =>
          match jsonCore f 2 r1 with
          | some (.elems vs, r2) => some (.val (.vList vs), r2)
          | _ => Option.none)
     | '\"' :: rest =>
       (match readStr rest with
        | some (s, r1) => some (.val (.vStr s), r1)
        | Option.none => Option.none)
     | 't' :: 'r' :: 'u' :: 'e' :: r => some (.val (.vBool true), r)
     | 'f' :: 'a' :: 'l' :: 's' :: 'e' :: r => some (.val (.vBool false), r)
     | 'n' :: 'u' :: 'l' :: 'l' :: r => some (.val .vNone, r)
     | cs1 =>
       match parseNum cs1 with
       | some (v, r) => some (.val v, r)
       | Option.none => Option.none)
  | Nat.succ f, 1, cs =>
    (match jSkipWs cs with
     | '\"' :: r =>
       (match readStr r with
        | some (k, r1) =>
          (match jSkipWs r1 with
           | ':' :: r2 =>
             (match jsonCore f 0 r2 with
              | some (.val v, r3) =>
                (match jSkipWs r3 with
                 | ',' :: r4 =>
                   (match jsonCore f 1 r4 with
                    | some (.mems kvs, r5) => some (.mems ((k, v) :: kvs), r5)
                    | _ => Option.none)
                 | '\x7d' :: r4 => some (.mems [(k, v)], r4)
                 | _ => Option.none)
              | _ => Option.none)
           | _ => Option.none)
        | Option.none => Option.none)
     | _ => Option.none)
  | Nat.succ f, 2, cs =>
    (match jsonCore f 0 cs with
     | some (.val v, r1) =>
       (match jSkipWs r1 with
        | ',' :: r2 =>
          (match jsonCore f 2 r2 with
           | some (.elems vs, r3) => some (.elems (v :: vs), r3)
           | _ => Option.none)
        | ']' :: r2 => some (.elems [v], r2)
        | _ => Option.none)
     | _ => Option.none)
  | Nat.succ _, _, _ => Option.none

/-- Model of json.loads: decodes one JSON value and requires only trailing
whitespace after it; any failure raises JSONDecodeError. -/
def json_loads (s : String) : Except String PyVal :=
  match jsonCore (2 * s.length + 8) 0 s.data with
  | some (.val v, rest) =>
    if jSkipWs rest = [] then .ok v else .error "Extra data"
  | _ => .error "Expecting value"

/-- LabVIEWConnector._process_message: decode the message and dispatch;
JSONDecodeError and every other exception are caught and logged, so a
failure writes nothing and never escapes. -/
def process_message (message : String) : List Row :=
  match json_loads message with
  | .ok v => process_decoded v
  | .error _ => []

/-- The acknowledgment the session sends after processing a received
message: the fixed bytes ACK, independent of the processing outcome
(line client_socket.sendall of _handle_client). -/
def ackOf (_message : String) : String := "ACK"

/-- LabVIEWConnector._handle_client read loop over the received messages of
one connection: each message is processed (never raising) and then
acknowledged; the loop ends only when the peer closes.  Returns the rows
written and the acknowledgment frames sent, in order. -/
def sessionRun : List String → List Row × List String
  | [] => ([], [])
  | m :: rest =>
    (process_message m ++ (sessionRun rest).1, ackOf m :: (sessionRun rest).2)

/-- Rows written over a whole connection. -/
def sessionWrites (ms : List String) : List Row :=
  (sessionRun ms).1

/-- Acknowledgment frames sent over a whole connection. -/
def sessionAcks (ms : List String) : List String :=
  (sessionRun ms).2

/-- ASCII lowering of one character, the model of Python str.lower on the
identifiers this repository uses. -/
def lowerChar (c : Char) : Char :=
  if 'A' ≤ c ∧ c ≤ 'Z' then Char.ofNat (c.toNat + 32) else c

/-- ASCII lowering of a string (Python str.lower on column labels). -/
def strLower (s : String) : String :=
  String.mk (s.data.map lowerChar)

/-- A pandas column with its dtype: datetime64, float, int or object
(strings).  The dtype drives the string-parsing branch of the
transformers and the datetime check of the validators. -/
inductive Col where
  | dts (vs : List Timestamp)
  | floats (vs : List ℚ)
  | ints (vs : List ℤ)
  | strs (vs : List String)
deriving DecidableEq

/-- A pandas data frame: named columns in order. -/
abbrev DataFrame := List (String × Col)

/-- Column names of a frame, in order. -/
def colNames (df : DataFrame) : List String :=
  df.map (fun c => c.1)

/-- df[name]: the first column with the given label, if any. -/
def findCol (df : DataFrame) (n : String) : Option Col :=
  (df.find? (fun c => c.1 == n)).map (fun c => c.2)

/-- df[name] where a missing label raises KeyError. -/
def getColE (df : DataFrame) (n : String) : Except String Col :=
  match findCol df n with
  | some c => .ok c
  | Option.none => .error ("KeyError: " ++ n)

/-- Column assignment df[name] = col: replaces the first column with that
label in place, or appends a new column at the end. -/
def setCol : DataFrame → String → Col → DataFrame
  | [], n, c => [(n, c)]
  | (m, d) :: rest, n, c =>
    if m == n then (n, c) :: rest else (m, d) :: setCol rest n c

/-- Column selection df[[names]]: raises KeyError when a label is missing,
otherwise returns the columns in the requested order. -/
def selectCols (df : DataFrame) (ns : List String) : Except String DataFrame :=
  ns.mapM (fun n => (getColE df n).map (fun c => (n, c)))

/-- Whether any column label, lowered, belongs to an alias class: the
pattern any(col.lower() in [...] for col in df.columns) of the
validators. -/
def hasAlias (df : DataFrame) (aliases : List String) : Bool :=
  df.any (fun c => aliases.contains (strLower c.1))

/-- Renaming every column label through a mapping function: the
col_mapping construction followed by df.rename of the transformers. -/
def renameBy (f : String → String) (df : DataFrame) : DataFrame :=
  df.map (fun c => (f c.1, c.2))

/-- Timestamp alias class shared by all three kinds. -/
def tsAliases : List String := ["timestamp", "time", "datetime"]

/-- Current alias class of the MPP kind. -/
def currentAliases : List String := ["current", "i"]

/-- Voltage alias class of the MPP kind. -/
def voltageAliases : List String := ["voltage", "v"]

/-- Power alias class of the MPP kind. -/
def powerAliases : List String := ["power", "p"]

/-- Temperature alias class. -/
def temperatureAliases : List String := ["temperature", "temp", "t"]

/-- Raw reading alias class of the irradiance kind (note: the canonical
label raw_reading itself is not an alias). -/
def rawAliases : List String := ["rawreading", "raw", "reading"]

/-- Irradiance alias class. -/
def irrAliases : List String := ["irradiance", "irr"]

/-- The four explicit fallback formats tried in source order by both the
validators and the transformers. -/
inductive Fmt where
  | ymdDash
  | dmySlash
  | mdySlash
  | ymdSlash
deriving DecidableEq

/-- Strict parse of one string under one explicit strptime format. -/
def parseFmt (f : Fmt) (s : String) : Option Timestamp :=
  match f, s.data with
  | .ymdDash, [y1, y2, y3, y4, '-', m1, m2, '-', d1, d2, ' ', h1, h2, ':', i1, i2, ':', s1, s2] =>
    (match num4 y1 y2 y3 y4, num2 m1 m2, num2 d1 d2, num2 h1 h2, num2 i1 i2, num2 s1 s2 with
     | some y, some mo, some d, some h, some i, some se => (mkDatetime y mo d h i se).toOption
     | _, _, _, _, _, _ => Option.none)
  | .dmySlash, [d1, d2, '/', m1, m2, '/', y1, y2, y3, y4, ' ', h1, h2, ':', i1, i2, ':', s1, s2] =>
    (match num4 y1 y2 y3 y4, num2 m1 m2, num2 d1 d2, num2 h1 h2, num2 i1 i2, num2 s1 s2 with
     | some y, some mo, some d, some h, some i, some se => (mkDatetime y mo d h i se).toOption
     | _, _, _, _, _, _ => Option.none)
  | .mdySlash, [m1, m2, '/', d1, d2, '/', y1, y2, y3, y4, ' ', h1, h2, ':', i1, i2, ':', s1, s2] =>
    (match num4 y1 y2 y3 y4, num2 m1 m2, num2 d1 d2, num2 h1 h2, num2 i1 i2, num2 s1 s2 with
     | some y, some mo, some d, some h, some i, some se => (mkDatetime y mo d h i se).toOption
     | _, _, _, _, _, _ => Option.none)
  | .ymdSlash, [y1, y2, y3, y4, '/', m1, m2, '/', d1, d2, ' ', h1, h2, ':', i1, i2, ':', s1, s2] =>
    (match num4 y1 y2 y3 y4, num2 m1 m2, num2 d1 d2, num2 h1 h2, num2 i1 i2, num2 s1 s2 with
     | some y, some mo, some d, some h, some i, some se => (mkDatetime y mo d h i se).toOption
     | _, _, _, _, _, _ => Option.none)
  | _, _ => Option.none

/-- The source format list, in its fixed order. -/
def fmtList : List Fmt := [.ymdDash, .dmySlash, .mdySlash, .ymdSlash]

/-- Model of the general pd.to_datetime string parser (dateutil) on the
formats this repository exchanges: ISO dates and the four explicit
formats, month-first for ambiguous slash dates. -/
def pdParseStr (s : String) : Option Timestamp :=
  (parseIso s).toOption
  |>.orElse (fun _ => parseFmt .ymdDash s)
  |>.orElse (fun _ => parseFmt .mdySlash s)
  |>.orElse (fun _ => parseFmt .dmySlash s)
  |>.orElse (fun _ => parseFmt .ymdSlash s)

/-- Whether a column is datetime64 dtype:
pd.api.types.is_datetime64_any_dtype. -/
def isDatetimeDtype : Col → Bool
  | .dts _ => true
  | _ => false

/-- Whether pd.to_datetime(col) succeeds without an explicit format:
datetime columns pass through, numeric columns convert as epoch offsets,
object columns need every entry to parse. -/
def pdToDatetimeOk : Col → Bool
  | .dts _ => true
  | .ints _ => true
  | .floats _ => true
  | .strs ss => (ss.mapM pdParseStr).isSome

/-- Whether pd.to_datetime(col, format=f) succeeds: only object columns
whose every entry matches the explicit format. -/
def pdToDatetimeFmtOk (f : Fmt) : Col → Bool
  | .strs ss => (ss.mapM (parseFmt f)).isSome
  | _ => false

/-- Shared tail of the three validators: pick the first timestamp-aliased
column, accept datetime dtype, else try the general conversion, else
the four fallback formats in order. -/
def timestampColOk (df : DataFrame) : Bool :=
  match (df.find? (fun c => tsAliases.contains (strLower c.1))).map (fun c => c.2) with
  | Option.none => false
  | some col =>
    if isDatetimeDtype col then true
    else if pdToDatetimeOk col then true
    else fmtList.any (fun f => pdToDatetimeFmtOk f col)

/-- validators._validate_mpp_data_format. -/
def validate_mpp_data_format (df : DataFrame) : Bool :=
  if hasAlias df tsAliases ∧ hasAlias df currentAliases ∧ hasAlias df voltageAliases
  then timestampColOk df else false

/-- validators._validate_temperature_data_format. -/
def validate_temperature_data_format (df : DataFrame) : Bool :=
  if hasAlias df tsAliases ∧ hasAlias df temperatureAliases
  then timestampColOk df else false

/-- validators._validate_irradiance_data_format. -/
def validate_irradiance_data_format (df : DataFrame) : Bool :=
  if hasAlias df tsAliases ∧ (hasAlias df rawAliases ∨ hasAlias df irrAliases)
  then timestampColOk df else false

/-- validators.validate_data_format: dispatch on the kind string, raising
ValueError on an unknown kind. -/
def validate_data_format (df : DataFrame) (dataType : String) : Except String Bool :=
  if dataType = "mpp" then .ok (validate_mpp_data_format df)
  else if dataType = "temperature" then .ok (validate_temperature_data_format df)
  else if dataType = "irradiance" then .ok (validate_irradiance_data_format df)
  else .error ("Unknown data type: " ++ dataType)

/-- Column label mapping of _transform_mpp_data. -/
def mppRename (n : String) : String :=
  if tsAliases.contains (strLower n) then "timestamp"
  else if currentAliases.contains (strLower n) then "current"
  else if voltageAliases.contains (strLower n) then "voltage"
  else if powerAliases.contains (strLower n) then "power"
  else n

/-- Column label mapping of _transform_temperature_data. -/
def temperatureRename (n : String) : String :=
  if tsAliases.contains (strLower n) then "timestamp"
  else if temperatureAliases.contains (strLower n) then "temperature"
  else n

/-- Column label mapping of _transform_irradiance_data. -/
def irradianceRename (n : String) : String :=
  if tsAliases.contains (strLower n) then "timestamp"
  else if rawAliases.contains (strLower n) then "raw_reading"
  else if irrAliases.contains (strLower n) then "irradiance"
  else n

/-- First fallback format under which every entry parses, in source order
(the for/try/break loop of the transformers). -/
def tryFmtList : List Fmt → List String → Option (List Timestamp)
  | [], _ => Option.none
  | f :: rest, ss =>
    match ss.mapM (parseFmt f) with
    | some ts => some ts
    | Option.none => tryFmtList rest ss

/-- Timestamp-parsing step shared by the three transformers: reads the
timestamp column (KeyError when absent), parses only object-dtype
columns, first via the general parser, then via the fallback formats;
when every format fails the column is left unchanged. -/
def parseTimestampCol (df : DataFrame) : Except String DataFrame :=
  match findCol df "timestamp" with
  | Option.none => .error ("KeyError: " ++ "timestamp")
  | some col =>
    match col with
    | .strs ss =>
      (match ss.mapM pdParseStr with
       | some ts => .ok (setCol df "timestamp" (.dts ts))
       | Option.none =>
         match tryFmtList fmtList ss with
         | some ts => .ok (setCol df "timestamp" (.dts ts))
         | Option.none => .ok df)
    | _ => .ok df

/-- Elementwise product of two columns, the pandas expression
result.current * result.voltage; non-numeric operands raise. -/
def colMul : Col → Col → Except String Col
  | .floats a, .floats b => .ok (.floats (List.zipWith (fun x y => x * y) a b))
  | .floats a, .ints b => .ok (.floats (List.zipWith (fun x y => x * (y : ℚ)) a b))
  | .ints a, .floats b => .ok (.floats (List.zipWith (fun x y => (x : ℚ) * y) a b))
  | .ints a, .ints b => .ok (.ints (List.zipWith (fun x y => x * y) a b))
  | _, _ => .error "TypeError"

/-- Elementwise product of a column with a float scalar, the pandas
expression result.raw_reading * 0.1. -/
def colScale (c : Col) (q : ℚ) : Except String Col :=
  match c with
  | .ints a => .ok (.floats (a.map (fun n => (n : ℚ) * q)))
  | .floats a => .ok (.floats (a.map (fun x => x * q)))
  | _ => .error "TypeError"

/-- transformers._transform_mpp_data: rename, parse the timestamp column,
derive power when the power column is absent, and select the four
canonical columns. -/
def transform_mpp_data (df : DataFrame) : Except String DataFrame :=
  let r := renameBy mppRename df
  match parseTimestampCol r with
  | .error e => .error e
  | .ok r2 =>
    match findCol r2 "power" with
    | some _ => selectCols r2 ["timestamp", "current", "voltage", "power"]
    | Option.none =>
      match getColE r2 "current" with
      | .error e => .error e
      | .ok c =>
        match getColE r2 "voltage" with
        | .error e => .error e
        | .ok v =>
          match colMul c v with
          | .error e => .error e
          | .ok p => selectCols (setCol r2 "power" p) ["timestamp", "current", "voltage", "power"]

/-- transformers._transform_temperature_data. -/
def transform_temperature_data (df : DataFrame) : Except String DataFrame :=
  let r := renameBy temperatureRename df
  match parseTimestampCol r with
  | .error e => .error e
  | .ok r2 => selectCols r2 ["timestamp", "temperature"]

/-- transformers._transform_irradiance_data: rename, parse the timestamp
column, derive irradiance only when the irradiance column is absent and
a raw_reading column is present (fixed factor 0.1), then select the
three canonical columns, which raises KeyError when raw_reading is
absent. -/
def transform_irradiance_data (df : DataFrame) : Except String DataFrame :=
  let r := renameBy irradianceRename df
  match parseTimestampCol r with
  | .error e => .error e
  | .ok r2 =>
    match findCol r2 "irradiance" with
    | some _ => selectCols r2 ["timestamp", "raw_reading", "irradiance"]
    | Option.none =>
      match findCol r2 "raw_reading" with
      | some rc =>
        (match colScale rc ((1 : ℚ) / 10) with
         | .error e => .error e
         | .ok ic => selectCols (setCol r2 "irradiance" ic) ["timestamp", "raw_reading", "irradiance"])
      | Option.none => selectCols r2 ["timestamp", "raw_reading", "irradiance"]

/-- transformers.transform_measurement_data: dispatch on the kind string,
raising ValueError on an unknown kind. -/
def transform_measurement_data (df : DataFrame) (dataType : String) : Except String DataFrame :=
  if dataType = "mpp" then transform_mpp_data df
  else if dataType = "temperature" then transform_temperature_data df
  else if dataType = "irradiance" then transform_irradiance_data df
  else .error ("Unknown data type: " ++ dataType)

/-- The timestamp 2023-09-20 12:00:00 used by the specification scenarios. -/
def ts0 : Timestamp := ⟨2023, 9, 20, 12, 0, 0⟩

/-- Scenario 1 wire message: a well-formed MPP envelope. -/
def goodMppMsg : String :=
  "\x7b\"type\":\"mpp\",\"data\":\x7b\"timestamp\":\"2023-09-20T12:00:00\",\"current\":0.05,\"voltage\":0.8\x7d,\"metadata\":\x7b\"board\":1,\"channel\":2\x7d\x7d"

/-- Scenario 2 wire message: malformed, not JSON. -/
def badMsg : String := "\x7bnot json"

/-- Scenario 3 wire message: an irradiance envelope whose timestamp uses the
slash date format and whose reading is under the raw alias. -/
def slashIrrMsg : String :=
  "\x7b\"type\":\"irradiance\",\"data\":\x7b\"timestamp\":\"2023/09/20 12:00:00\",\"raw\":900\x7d\x7d"

/-- A well-formed temperature envelope, used to show processing continues
after a malformed message. -/
def goodTempMsg : String :=
  "\x7b\"type\":\"temperature\",\"data\":\x7b\"timestamp\":\"2023-09-20T12:00:00\",\"temperature\":25.5\x7d,\"metadata\":\x7b\"sensor_id\":7\x7d\x7d"

/-- An irradiance frame that the validator accepts (timestamp plus an
irradiance-aliased column) but that has no raw-reading-aliased column. -/
def irrOnlyDf : DataFrame := [("Timestamp", Col.dts [ts0]), ("Irradiance", Col.floats [500])]

/-- Bind on an ok value in the Except monad steps to the continuation. -/
theorem exbind_ok {ε α β : Type} (a : α) (f : α → Except ε β) :
    ((Except.ok a : Except ε α) >>= f) = f a := rfl

/-- Bind on an error in the Except monad propagates the error. -/
theorem exbind_error {ε α β : Type} (e : ε) (f : α → Except ε β) :
    ((Except.error e : Except ε α) >>= f) = Except.error e := rfl

/-- Inversion of bind in the Except monad. -/
theorem exbind_eq_ok {ε α β : Type} (a : Except ε α) (f : α → Except ε β) (b : β) :
    ((a >>= f) = Except.ok b) ↔ ∃ x, a = Except.ok x ∧ f x = Except.ok b := by
  cases a with
  | ok x => simp [exbind_ok]
  | error e => simp [exbind_error]

/-- Pure in the Except monad is ok. -/
theorem expure_eq_ok {ε α : Type} (a b : α) :
    ((pure a : Except ε α) = Except.ok b) ↔ a = b := by
  constructor
  · intro h
    cases h
    rfl
  · intro h
    cases h
    rfl

/-- Inversion of the MPP row builder: a built row determines a successful
outcome of every extraction step, in source order. -/
theorem mpp_row_eq_ok (kvs : List (String × PyVal)) (md : PyVal) (r : Row) :
    mpp_row kvs md = Except.ok r ↔
    ∃ ts c v p bv b cv ch,
      datetime_fromisoformat (dGet kvs "timestamp") = Except.ok ts ∧
      pyFloat (dGetD kvs "current" (.vInt 0)) = Except.ok c ∧
      pyFloat (dGetD kvs "voltage" (.vInt 0)) = Except.ok v ∧
      pyFloat (dGetD kvs "power" (.vFloat (c * v))) = Except.ok p ∧
      pyAttrGetD md "board" (.vInt 0) = Except.ok bv ∧
      pyInt bv = Except.ok b ∧
      pyAttrGetD md "channel" (.vInt 0) = Except.ok cv ∧
      pyInt cv = Except.ok ch ∧
      r = Row.mpp ts c v p b ch := by
  simp only [mpp_row, exbind_eq_ok, expure_eq_ok]
  constructor
  · rintro ⟨ts, hts, c, hc, v, hv, p, hp, bv, hbv, b, hb, cv, hcv, ch, hch, hr⟩
    exact ⟨ts, c, v, p, bv, b, cv, ch, hts, hc, hv, hp, hbv, hb, hcv, hch, hr.symm⟩
  · rintro ⟨ts, c, v, p, bv, b, cv, ch, hts, hc, hv, hp, hbv, hb, hcv, hch, hr⟩
    exact ⟨ts, hts, c, hc, v, hv, p, hp, bv, hbv, b, hb, cv, hcv, ch, hch, hr.symm⟩

/-- Inversion of the temperature row builder. -/
theorem temperature_row_eq_ok (kvs : List (String × PyVal)) (md : PyVal) (r : Row) :
    temperature_row kvs md = Except.ok r ↔
    ∃ ts t sid,
      datetime_fromisoformat (dGet kvs "timestamp") = Except.ok ts ∧
      pyFloat (dGetD kvs "temperature" (.vInt 0)) = Except.ok t ∧
      pyAttrGet md "sensor_id" = Except.ok sid ∧
      r = Row.temperature ts t sid := by
  simp only [temperature_row, exbind_eq_ok, expure_eq_ok]
  constructor
  · rintro ⟨ts, hts, t, ht, sid, hsid, hr⟩
    exact ⟨ts, t, sid, hts, ht, hsid, hr.symm⟩
  · rintro ⟨ts, t, sid, hts, ht, hsid, hr⟩
    exact ⟨ts, hts, t, ht, sid, hsid, hr.symm⟩

/-- Inversion of the irradiance row builder. -/
theorem irradiance_row_eq_ok (kvs : List (String × PyVal)) (md : PyVal) (r : Row) :
    irradiance_row kvs md = Except.ok r ↔
    ∃ ts raw irr sid,
      datetime_fromisoformat (dGet kvs "timestamp") = Except.ok ts ∧
      pyInt (dGetD kvs "raw_reading" (.vInt 0)) = Except.ok raw ∧
      pyFloat (dGetD kvs "irradiance" (.vInt 0)) = Except.ok irr ∧
      pyAttrGet md "sensor_id" = Except.ok sid ∧
      r = Row.irradiance ts raw irr sid := by
  simp only [irradiance_row, exbind_eq_ok, expure_eq_ok]
  constructor
  · rintro ⟨ts, hts, raw, hraw, irr, hirr, sid, hsid, hr⟩
    exact ⟨ts, raw, irr, sid, hts, hraw, hirr, hsid, hr.symm⟩
  · rintro ⟨ts, raw, irr, sid, hts, hraw, hirr, hsid, hr⟩
    exact ⟨ts, hts, raw, hraw, irr, hirr, sid, hsid, hr.symm⟩

/-- A written MPP row comes from a dict payload whose row builder succeeded. -/
theorem store_mpp_cons (meas md : PyVal) (r : Row) (rest : List Row)
    (h : store_mpp_measurement meas md = r :: rest) :
    ∃ kvs, meas = PyVal.vDict kvs ∧ mpp_row kvs md = Except.ok r ∧ rest = [] := by
  cases meas with
  | vDict kvs =>
    refine ⟨kvs, rfl, ?_⟩
    unfold store_mpp_measurement at h
    cases hrow : mpp_row kvs md with
    | ok r0 =>
      simp only [hrow] at h
      cases h
      exact ⟨rfl, rfl⟩
    | error e =>
      simp only [hrow] at h
      exact List.noConfusion h
  | vNone => cases h
  | vBool b => cases h
  | vInt n => cases h
  | vFloat q => cases h
  | vStr s => cases h
  | vList vs => cases h

/-- A written temperature row comes from a dict payload whose row builder
succeeded. -/
theorem store_temperature_cons (meas md : PyVal) (r : Row) (rest : List Row)
    (h : store_temperature_measurement meas md = r :: rest) :
    ∃ kvs, meas = PyVal.vDict kvs ∧ temperature_row kvs md = Except.ok r ∧ rest = [] := by
  cases meas with
  | vDict kvs =>
    refine ⟨kvs, rfl, ?_⟩
    unfold store_temperature_measurement at h
    cases hrow : temperature_row kvs md with
    | ok r0 =>
      simp only [hrow] at h
      cases h
      exact ⟨rfl, rfl⟩
    | error e =>
      simp only [hrow] at h
      exact List.noConfusion h
  | vNone => cases h
  | vBool b => cases h
  | vInt n => cases h
  | vFloat q => cases h
  | vStr s => cases h
  | vList vs => cases h

/-- A written irradiance row comes from a dict payload whose row builder
succeeded. -/
theorem store_irradiance_cons (meas md : PyVal) (r : Row) (rest : List Row)
    (h : store_irradiance_measurement meas md = r :: rest) :
    ∃ kvs, meas = PyVal.vDict kvs ∧ irradiance_row kvs md = Except.ok r ∧ rest = [] := by
  cases meas with
  | vDict kvs =>
    refine ⟨kvs, rfl, ?_⟩
    unfold store_irradiance_measurement at h
    cases hrow : irradiance_row kvs md with
    | ok r0 =>
      simp only [hrow] at h
      cases h
      exact ⟨rfl, rfl⟩
    | error e =>
      simp only [hrow] at h
      exact List.noConfusion h
  | vNone => cases h
  | vBool b => cases h
  | vInt n => cases h
  | vFloat q => cases h
  | vStr s => cases h
  | vList vs => cases h

/-- C1, amended: a row is persisted by the network path only if the payload
is a mapping whose timestamp field parses under datetime.fromisoformat;
the other canonical fields are not required (they default), so the
original claim fails, see the counterexample. -/
theorem c1_row_persisted_only_with_parseable_timestamp :
    (∀ (meas md : PyVal) (r : Row) (rest : List Row),
        store_mpp_measurement meas md = r :: rest →
        ∃ kvs t, meas = PyVal.vDict kvs ∧
          datetime_fromisoformat (dGet kvs "timestamp") = Except.ok t)
  ∧ (∀ (meas md : PyVal) (r : Row) (rest : List Row),
        store_temperature_measurement meas md = r :: rest →
        ∃ kvs t, meas = PyVal.vDict kvs ∧
          datetime_fromisoformat (dGet kvs "timestamp") = Except.ok t)
  ∧ (∀ (meas md : PyVal) (r : Row) (rest : List Row),
        store_irradiance_measurement meas md = r :: rest →
        ∃ kvs t, meas = PyVal.vDict kvs ∧
          datetime_fromisoformat (dGet kvs "timestamp") = Except.ok t) := by
  refine ⟨?_, ?_, ?_⟩
  · intro meas md r rest h
    obtain ⟨kvs, hm, hrow, -⟩ := store_mpp_cons meas md r rest h
    obtain ⟨ts, c, v, p, bv, b, cv, ch, hts, -⟩ := (mpp_row_eq_ok kvs md r).mp hrow
    exact ⟨kvs, ts, hm, hts⟩
  · intro meas md r rest h
    obtain ⟨kvs, hm, hrow, -⟩ := store_temperature_cons meas md r rest h
    obtain ⟨ts, t, sid, hts, -⟩ := (temperature_row_eq_ok kvs md r).mp hrow
    exact ⟨kvs, ts, hm, hts⟩
  · intro meas md r rest h
    obtain ⟨kvs, hm, hrow, -⟩ := store_irradiance_cons meas md r rest h
    obtain ⟨ts, raw, irr, sid, hts, -⟩ := (irradiance_row_eq_ok kvs md r).mp hrow
    exact ⟨kvs, ts, hm, hts⟩

/-- C1, counterexample to the claim as stated: an MPP payload with no
current field is still persisted, with current defaulted to 0. -/
theorem c1_mpp_missing_current_still_persisted :
    store_mpp_measurement
      (PyVal.vDict [("timestamp", PyVal.vStr "2023-09-20T12:00:00"), ("voltage", PyVal.vFloat (4/5))])
      (PyVal.vDict [])
    = [Row.mpp ts0 0 (4/5) 0 0 0] := by
  with_unfolding_all rfl

/-- C1, witness: the amended theorem applied at a concrete persisted row. -/
theorem c1_witness :
    ∃ kvs t,
      (PyVal.vDict [("timestamp", PyVal.vStr "2023-09-20T12:00:00"),
        ("current", PyVal.vInt 1), ("voltage", PyVal.vInt 2)]) = PyVal.vDict kvs ∧
      datetime_fromisoformat (dGet kvs "timestamp") = Except.ok t :=
  c1_row_persisted_only_with_parseable_timestamp.1
    (PyVal.vDict [("timestamp", PyVal.vStr "2023-09-20T12:00:00"),
      ("current", PyVal.vInt 1), ("voltage", PyVal.vInt 2)])
    (PyVal.vDict []) (Row.mpp ts0 1 2 2 0 0) [] (by with_unfolding_all rfl)

/-- C4, counterexample to the claim as stated: the scenario envelope with a
slash-formatted timestamp and a raw key produces no persisted row on the
network path. -/
theorem c4_slash_timestamp_message_not_persisted :
    process_message slashIrrMsg = [] := by
  with_unfolding_all rfl

/-- C4, amended: the network path accepts only fromisoformat timestamps, so
the slash-formatted timestamp of the scenario envelope raises ValueError
and the whole session writes nothing for it; no fallback format and no
raw alias exist on this path. -/
theorem c4_network_rejects_slash_timestamp :
    parseIso "2023/09/20 12:00:00" = Except.error "ValueError" ∧
    sessionWrites [slashIrrMsg] = [] := by
  constructor
  · with_unfolding_all rfl
  · with_unfolding_all rfl

/-- C5, counterexample to the claim as stated: two successfully decoded
messages, one persisted and one dropped, receive the same fixed
acknowledgment frame ACK, so the acknowledgment carries no
ok/rejected/error status and cannot distinguish accepted from dropped
data. -/
theorem c5_ack_is_unconditional_opaque :
    process_message goodMppMsg = [Row.mpp ts0 (1/20) (4/5) (1/25) 1 2] ∧
    (json_loads slashIrrMsg).isOk = true ∧
    process_message slashIrrMsg = [] ∧
    sessionAcks [goodMppMsg] = sessionAcks [slashIrrMsg] := by
  refine ⟨?_, ?_, ?_, ?_⟩
  · set_option maxRecDepth 8000 in with_unfolding_all rfl
  · set_option maxRecDepth 8000 in with_unfolding_all rfl
  · with_unfolding_all rfl
  · rfl

/-- C5, amended: the session sends exactly one acknowledgment frame per
received message, and the frame is always the fixed opaque bytes ACK,
independent of the validate/normalize/write outcome. -/
theorem c5_every_message_acked_once_with_fixed_ack (ms : List String) :
    sessionAcks ms = ms.map (fun _ => "ACK") := by
  induction ms with
  | nil => rfl
  | cons m rest ih =>
    unfold sessionAcks at ih
    unfold sessionAcks sessionRun
    simp only [List.map_cons, ackOf]
    exact congrArg (fun l => "ACK" :: l) ih

/-- C6, counterexample to the claim as stated: validation of a payload with
an unknown kind raises ValueError instead of returning a result. -/
theorem c6_unknown_kind_raises_valueerror :
    validate_data_format [] "bogus" = Except.error "Unknown data type: bogus" := rfl

/-- C6, amended: for each of the three known kinds, validation always
returns a boolean result and never raises. -/
theorem c6_known_kinds_return_result (df : DataFrame) (dataType : String)
    (h : dataType = "mpp" ∨ dataType = "temperature" ∨ dataType = "irradiance") :
    ∃ b, validate_data_format df dataType = Except.ok b := by
  rcases h with h | h | h <;> subst h <;> simp [validate_data_format]

/-- C6, witness: the amended theorem applied at a concrete frame and kind. -/
theorem c6_witness :
    ∃ b, validate_data_format irrOnlyDf "irradiance" = Except.ok b :=
  c6_known_kinds_return_result irrOnlyDf "irradiance" (Or.inr (Or.inr rfl))

/-- C8: the validator accepts an irradiance frame that has a timestamp-like
and an irradiance-like column but no raw-reading-like column, and the
transformer then crashes on it with an uncaught KeyError instead of
returning a value or a clean incomplete-data failure. -/
theorem c8_validated_irradiance_without_raw_crashes_transform :
    validate_data_format irrOnlyDf "irradiance" = Except.ok true ∧
    transform_measurement_data irrOnlyDf "irradiance" = Except.error "KeyError: raw_reading" := by
  exact ⟨rfl, rfl⟩

/-- C9: validate then transform is a fixed point on canonical frames of all
three kinds: canonical column names in canonical order, datetime-typed
timestamps and derived fields present are accepted and returned
unchanged. -/
theorem c9_canonical_fixed_point
    (ts : List Timestamp) (cs vs ps xs irrs : List ℚ) (rs : List ℤ) :
    (validate_data_format
        [("timestamp", Col.dts ts), ("current", Col.floats cs),
         ("voltage", Col.floats vs), ("power", Col.floats ps)] "mpp" = Except.ok true ∧
      transform_measurement_data
        [("timestamp", Col.dts ts), ("current", Col.floats cs),
         ("voltage", Col.floats vs), ("power", Col.floats ps)] "mpp"
      = Except.ok
        [("timestamp", Col.dts ts), ("current", Col.floats cs),
         ("voltage", Col.floats vs), ("power", Col.floats ps)])
  ∧ (validate_data_format
        [("timestamp", Col.dts ts), ("temperature", Col.floats xs)] "temperature"
        = Except.ok true ∧
      transform_measurement_data
        [("timestamp", Col.dts ts), ("temperature", Col.floats xs)] "temperature"
      = Except.ok [("timestamp", Col.dts ts), ("temperature", Col.floats xs)])
  ∧ (validate_data_format
        [("timestamp", Col.dts ts), ("raw_reading", Col.ints rs),
         ("irradiance", Col.floats irrs)] "irradiance" = Except.ok true ∧
      transform_measurement_data
        [("timestamp", Col.dts ts), ("raw_reading", Col.ints rs),
         ("irradiance", Col.floats irrs)] "irradiance"
      = Except.ok
        [("timestamp", Col.dts ts), ("raw_reading", Col.ints rs),
         ("irradiance", Col.floats irrs)]) :=
  ⟨⟨rfl, rfl⟩, ⟨rfl, rfl⟩, ⟨rfl, rfl⟩⟩

/-- C10: a decoded message whose type is absent or falsy, or whose data is
absent or falsy, is dropped before any store operation, and an empty
data mapping is treated exactly like an absent one. -/
theorem c10_falsy_type_or_data_writes_nothing :
    (∀ kvs, pyTruthy (dGet kvs "type") = false ∨ pyTruthy (dGet kvs "data") = false →
        process_decoded (PyVal.vDict kvs) = [])
  ∧ (∀ kvs, lookupKV kvs "data" = Option.none →
        process_decoded (PyVal.vDict (("data", PyVal.vDict []) :: kvs))
        = process_decoded (PyVal.vDict kvs)) := by
  constructor
  · intro kvs h
    unfold process_decoded
    rcases h with h | h <;> simp [h]
  · intro kvs h
    unfold process_decoded
    have hleft : dGet (("data", PyVal.vDict []) :: kvs) "data" = PyVal.vDict [] := by
      simp [dGet, lookupKV]
    have hright : dGet kvs "data" = PyVal.vNone := by
      simp [dGet, h]
    simp [hleft, hright, pyTruthy]

/-- C10, witness: both parts applied at a concrete envelope. -/
theorem c10_witness :
    process_decoded (PyVal.vDict [("type", PyVal.vStr "mpp")]) = [] ∧
    process_decoded (PyVal.vDict [("data", PyVal.vDict []), ("type", PyVal.vStr "mpp")])
      = process_decoded (PyVal.vDict [("type", PyVal.vStr "mpp")]) :=
  ⟨c10_falsy_type_or_data_writes_nothing.1 [("type", PyVal.vStr "mpp")] (Or.inr rfl),
   c10_falsy_type_or_data_writes_nothing.2 [("type", PyVal.vStr "mpp")] rfl⟩

/-- Unfolding of the session writes over one received message. -/
theorem sessionWrites_cons (m : String) (ms : List String) :
    sessionWrites (m :: ms) = process_message m ++ sessionWrites ms := rfl

/-- The session writes distribute over concatenated message streams. -/
theorem sessionWrites_append (xs ys : List String) :
    sessionWrites (xs ++ ys) = sessionWrites xs ++ sessionWrites ys := by
  induction xs with
  | nil => rfl
  | cons m rest ih =>
    rw [List.cons_append, sessionWrites_cons, sessionWrites_cons, ih, List.append_assoc]

/-- C7: a message that fails to decode writes nothing and does not
terminate the connection: the rows written over the whole connection
are exactly those of the same stream without the malformed message, so
every later well-formed message is still processed and persisted. -/
theorem c7_malformed_message_never_terminates_connection
    (xs ys : List String) (m : String) (e : String)
    (h : json_loads m = Except.error e) :
    process_message m = [] ∧
    sessionWrites (xs ++ m :: ys) = sessionWrites (xs ++ ys) := by
  have hpm : process_message m = [] := by
    unfold process_message
    rw [h]
  refine ⟨hpm, ?_⟩
  rw [sessionWrites_append, sessionWrites_append, sessionWrites_cons, hpm, List.nil_append]

/-- C7, witness: the theorem applied to the malformed scenario message
followed by a well-formed temperature message, which is still persisted. -/
theorem c7_witness :
    (process_message badMsg = [] ∧
      sessionWrites ([] ++ badMsg :: [goodTempMsg]) = sessionWrites ([] ++ [goodTempMsg])) ∧
    sessionWrites [goodTempMsg] = [Row.temperature ts0 (51/2) (PyVal.vInt 7)] := by
  constructor
  · exact c7_malformed_message_never_terminates_connection [] [goodTempMsg] badMsg
      "Expecting value" (by with_unfolding_all rfl)
  · set_option maxRecDepth 8000 in with_unfolding_all rfl

/-- Assigning a column and then reading it back gives the assigned column. -/
theorem findCol_setCol_self (df : DataFrame) (n : String) (c : Col) :
    findCol (setCol df n c) n = some c := by
  induction df with
  | nil => simp [setCol, findCol, List.find?]
  | cons p rest ih =>
    rcases p with ⟨m, d⟩
    unfold setCol
    by_cases hm : (m == n) = true
    · simp [hm, findCol, List.find?]
    · simp only [hm]
      simp only [Bool.false_eq_true, if_false]
      unfold findCol at ih ⊢
      simp [List.find?, hm, ih]

/-- Assigning one column leaves every other lookup unchanged. -/
theorem findCol_setCol_ne (df : DataFrame) (n n' : String) (c : Col) (h : n' ≠ n) :
    findCol (setCol df n c) n' = findCol df n' := by
  induction df with
  | nil =>
    simp [setCol, findCol, List.find?, show (n == n') = false by
      simp [Ne.symm h]]
  | cons p rest ih =>
    rcases p with ⟨m, d⟩
    unfold setCol
    by_cases hm : (m == n) = true
    · have hmn : m = n := by simpa using hm
      subst hmn
      simp [findCol, List.find?, show (m == n') = false by simp [Ne.symm h]]
    · simp only [hm, Bool.false_eq_true, if_false]
      unfold findCol at ih ⊢
      by_cases hm' : (m == n') = true
      · simp [List.find?, hm']
      · simp [List.find?, hm', ih]

/-- When no column of the frame belongs to the alias class that maps to the
target label, and the rename function reaches the target only through
that class, the renamed frame has no target column. -/
theorem findCol_renameBy_none (f : String → String) (df : DataFrame)
    (target : String) (aliases : List String)
    (hchar : ∀ n, f n = target → aliases.contains (strLower n) = true)
    (h : hasAlias df aliases = false) :
    findCol (renameBy f df) target = Option.none := by
  cases hf : (renameBy f df).find? (fun c => c.1 == target) with
  | none => simp [findCol, hf]
  | some p =>
    exfalso
    have hpred := List.find?_some hf
    have hmem := List.mem_of_find?_eq_some hf
    unfold renameBy at hmem
    rw [List.mem_map] at hmem
    obtain ⟨q, hq, hqp⟩ := hmem
    have hft : f q.1 = target := by
      rw [← hqp] at hpred
      simpa using hpred
    have halias := hchar q.1 hft
    have htrue : hasAlias df aliases = true := by
      unfold hasAlias
      rw [List.any_eq_true]
      exact ⟨q, hq, halias⟩
    rw [h] at htrue
    cases htrue

/-- When some column of the frame belongs to an alias class, and the class
maps to the target label under the rename function, the renamed frame
has a target column. -/
theorem findCol_renameBy_isSome (f : String → String) (df : DataFrame)
    (target : String) (aliases : List String)
    (hchar : ∀ n, aliases.contains (strLower n) = true → f n = target)
    (h : hasAlias df aliases = true) :
    ∃ c, findCol (renameBy f df) target = some c := by
  unfold hasAlias at h
  rw [List.any_eq_true] at h
  obtain ⟨p, hp, halias⟩ := h
  have hft : f p.1 = target := hchar p.1 halias
  have hmem : (f p.1, p.2) ∈ renameBy f df := by
    unfold renameBy
    exact List.mem_map.mpr ⟨p, hp, rfl⟩
  have hsome : ((renameBy f df).find? (fun c => c.1 == target)).isSome := by
    rw [List.find?_isSome]
    exact ⟨(f p.1, p.2), hmem, by simp [hft]⟩
  cases hfp : (renameBy f df).find? (fun c => c.1 == target) with
  | none =>
    rw [hfp] at hsome
    cases hsome
  | some q =>
    exact ⟨q.2, by simp [findCol, hfp]⟩

/-- A successful timestamp-parsing step leaves every non-timestamp column
lookup unchanged. -/
theorem parseTimestampCol_findCol_ne (df r2 : DataFrame) (n : String)
    (hn : n ≠ "timestamp") (h : parseTimestampCol df = Except.ok r2) :
    findCol r2 n = findCol df n := by
  unfold parseTimestampCol at h
  cases hf : findCol df "timestamp" with
  | none =>
    simp only [hf] at h
    cases h
  | some col =>
    simp only [hf] at h
    cases col with
    | strs ss =>
      cases hm : ss.mapM pdParseStr with
      | some ts =>
        simp only [hm] at h
        cases h
        exact findCol_setCol_ne df "timestamp" n (Col.dts ts) hn
      | none =>
        simp only [hm] at h
        cases ht : tryFmtList fmtList ss with
        | some ts =>
          simp only [ht] at h
          cases h
          exact findCol_setCol_ne df "timestamp" n (Col.dts ts) hn
        | none =>
          simp only [ht] at h
          cases h
          rfl
    | dts vs =>
      cases h
      rfl
    | floats vs =>
      cases h
      rfl
    | ints vs =>
      cases h
      rfl

/-- A successful timestamp-parsing step leaves a timestamp column present. -/
theorem parseTimestampCol_ts_isSome (df r2 : DataFrame)
    (h : parseTimestampCol df = Except.ok r2) :
    ∃ c, findCol r2 "timestamp" = some c := by
  unfold parseTimestampCol at h
  cases hf : findCol df "timestamp" with
  | none =>
    simp only [hf] at h
    cases h
  | some col =>
    simp only [hf] at h
    cases col with
    | strs ss =>
      cases hm : ss.mapM pdParseStr with
      | some ts =>
        simp only [hm] at h
        cases h
        exact ⟨Col.dts ts, findCol_setCol_self df "timestamp" (Col.dts ts)⟩
      | none =>
        simp only [hm] at h
        cases ht : tryFmtList fmtList ss with
        | some ts =>
          simp only [ht] at h
          cases h
          exact ⟨Col.dts ts, findCol_setCol_self df "timestamp" (Col.dts ts)⟩
        | none =>
          simp only [ht] at h
          cases h
          exact ⟨Col.strs ss, hf⟩
    | dts vs =>
      cases h
      exact ⟨Col.dts vs, hf⟩
    | floats vs =>
      cases h
      exact ⟨Col.floats vs, hf⟩
    | ints vs =>
      cases h
      exact ⟨Col.ints vs, hf⟩

/-- The MPP rename maps a label to power only via the power alias class. -/
theorem mppRename_eq_power (n : String) (h : mppRename n = "power") :
    powerAliases.contains (strLower n) = true := by
  unfold mppRename at h
  split at h
  · exact absurd h (by decide)
  split at h
  · exact absurd h (by decide)
  split at h
  · exact absurd h (by decide)
  split at h
  · assumption
  · subst h
    rfl

/-- A current-aliased label renames to current under the MPP mapping. -/
theorem mppRename_of_current (n : String)
    (h : currentAliases.contains (strLower n) = true) : mppRename n = "current" := by
  have h' : strLower n = "current" ∨ strLower n = "i" := by
    simpa [currentAliases] using h
  unfold mppRename
  rcases h' with h' | h' <;> rw [h'] <;> rfl

/-- A voltage-aliased label renames to voltage under the MPP mapping. -/
theorem mppRename_of_voltage (n : String)
    (h : voltageAliases.contains (strLower n) = true) : mppRename n = "voltage" := by
  have h' : strLower n = "voltage" ∨ strLower n = "v" := by
    simpa [voltageAliases] using h
  unfold mppRename
  rcases h' with h' | h' <;> rw [h'] <;> rfl

/-- The irradiance rename maps a label to irradiance only via the
irradiance alias class. -/
theorem irradianceRename_eq_irr (n : String) (h : irradianceRename n = "irradiance") :
    irrAliases.contains (strLower n) = true := by
  unfold irradianceRename at h
  split at h
  · exact absurd h (by decide)
  split at h
  · exact absurd h (by decide)
  split at h
  · assumption
  · subst h
    rfl

/-- A raw-aliased label renames to raw_reading under the irradiance
mapping. -/
theorem irradianceRename_of_raw (n : String)
    (h : rawAliases.contains (strLower n) = true) : irradianceRename n = "raw_reading" := by
  have h' : strLower n = "rawreading" ∨ strLower n = "raw" ∨ strLower n = "reading" := by
    simpa [rawAliases] using h
  unfold irradianceRename
  rcases h' with h' | h' | h' <;> rw [h'] <;> rfl

/-- Bind on pure in the Except monad steps to the continuation. -/
theorem expure_bind {ε α β : Type} (a : α) (f : α → Except ε β) :
    ((pure a : Except ε α) >>= f) = f a := rfl

/-- Batch path: when an MPP frame has current-like and voltage-like columns
but no power-like column, the transformed frame carries the canonical
columns with power equal to the elementwise product of current and
voltage. -/
theorem transform_mpp_power_derived (df out : DataFrame)
    (hpow : hasAlias df powerAliases = false)
    (hc : hasAlias df currentAliases = true)
    (hv : hasAlias df voltageAliases = true)
    (h : transform_mpp_data df = Except.ok out) :
    ∃ tc cc vc pc,
      out = [("timestamp", tc), ("current", cc), ("voltage", vc), ("power", pc)] ∧
      colMul cc vc = Except.ok pc := by
  unfold transform_mpp_data at h
  cases hpt : parseTimestampCol (renameBy mppRename df) with
  | error e =>
    simp only [hpt] at h
    cases h
  | ok r2 =>
    have hnp : findCol r2 "power" = Option.none := by
      rw [parseTimestampCol_findCol_ne _ _ "power" (by decide) hpt]
      exact findCol_renameBy_none mppRename df "power" powerAliases mppRename_eq_power hpow
    obtain ⟨cc, hcc⟩ : ∃ c, findCol r2 "current" = some c := by
      rw [parseTimestampCol_findCol_ne _ _ "current" (by decide) hpt]
      exact findCol_renameBy_isSome mppRename df "current" currentAliases mppRename_of_current hc
    obtain ⟨vc, hvc⟩ : ∃ c, findCol r2 "voltage" = some c := by
      rw [parseTimestampCol_findCol_ne _ _ "voltage" (by decide) hpt]
      exact findCol_renameBy_isSome mppRename df "voltage" voltageAliases mppRename_of_voltage hv
    obtain ⟨tc, htc⟩ := parseTimestampCol_ts_isSome _ _ hpt
    simp only [hpt, hnp, getColE, hcc, hvc] at h
    cases hmul : colMul cc vc with
    | error e =>
      simp only [hmul] at h
      cases h
    | ok pc =>
      simp only [hmul] at h
      have h1 : findCol (setCol r2 "power" pc) "timestamp" = some tc := by
        rw [findCol_setCol_ne _ _ _ _ (by decide)]
        exact htc
      have h2 : findCol (setCol r2 "power" pc) "current" = some cc := by
        rw [findCol_setCol_ne _ _ _ _ (by decide)]
        exact hcc
      have h3 : findCol (setCol r2 "power" pc) "voltage" = some vc := by
        rw [findCol_setCol_ne _ _ _ _ (by decide)]
        exact hvc
      have h4 : findCol (setCol r2 "power" pc) "power" = some pc :=
        findCol_setCol_self r2 "power" pc
      simp only [selectCols, List.mapM_cons, List.mapM_nil, getColE,
        h1, h2, h3, h4, Except.map, exbind_ok, expure_bind, expure_eq_ok] at h
      exact ⟨tc, cc, vc, pc, h.symm, hmul⟩

/-- Batch path: when an irradiance frame has a raw-reading-like column but
no irradiance-like column, the transformed frame carries the canonical
columns with irradiance equal to raw_reading scaled by the fixed factor
one tenth. -/
theorem transform_irr_derived (df out : DataFrame)
    (hirr : hasAlias df irrAliases = false)
    (hraw : hasAlias df rawAliases = true)
    (h : transform_irradiance_data df = Except.ok out) :
    ∃ tc rc ic,
      out = [("timestamp", tc), ("raw_reading", rc), ("irradiance", ic)] ∧
      colScale rc ((1 : ℚ) / 10) = Except.ok ic := by
  unfold transform_irradiance_data at h
  cases hpt : parseTimestampCol (renameBy irradianceRename df) with
  | error e =>
    simp only [hpt] at h
    cases h
  | ok r2 =>
    have hni : findCol r2 "irradiance" = Option.none := by
      rw [parseTimestampCol_findCol_ne _ _ "irradiance" (by decide) hpt]
      exact findCol_renameBy_none irradianceRename df "irradiance" irrAliases
        irradianceRename_eq_irr hirr
    obtain ⟨rc, hrc⟩ : ∃ c, findCol r2 "raw_reading" = some c := by
      rw [parseTimestampCol_findCol_ne _ _ "raw_reading" (by decide) hpt]
      exact findCol_renameBy_isSome irradianceRename df "raw_reading" rawAliases
        irradianceRename_of_raw hraw
    obtain ⟨tc, htc⟩ := parseTimestampCol_ts_isSome _ _ hpt
    simp only [hpt, hni, hrc] at h
    cases hsc : colScale rc ((1 : ℚ) / 10) with
    | error e =>
      simp only [hsc] at h
      cases h
    | ok ic =>
      simp only [hsc] at h
      have h1 : findCol (setCol r2 "irradiance" ic) "timestamp" = some tc := by
        rw [findCol_setCol_ne _ _ _ _ (by decide)]
        exact htc
      have h2 : findCol (setCol r2 "irradiance" ic) "raw_reading" = some rc := by
        rw [findCol_setCol_ne _ _ _ _ (by decide)]
        exact hrc
      have h3 : findCol (setCol r2 "irradiance" ic) "irradiance" = some ic :=
        findCol_setCol_self r2 "irradiance" ic
      simp only [selectCols, List.mapM_cons, List.mapM_nil, getColE,
        h1, h2, h3, Except.map, exbind_ok, expure_bind, expure_eq_ok] at h
      exact ⟨tc, rc, ic, h.symm, hsc⟩

/-- C2: on the network path, an MPP payload with current and voltage but no
power field is persisted with power exactly current times voltage, a
supplied power field is kept as converted, and on the batch path a frame
without a power-like column gets the elementwise product as its power
column. -/
theorem c2_power_defaults_to_current_times_voltage :
    (∀ (kvs : List (String × PyVal)) (md : PyVal) (ts : Timestamp) (c v p : ℚ)
        (b ch : ℤ) (rest : List Row),
        lookupKV kvs "power" = Option.none →
        (lookupKV kvs "current").isSome = true →
        (lookupKV kvs "voltage").isSome = true →
        store_mpp_measurement (PyVal.vDict kvs) md = Row.mpp ts c v p b ch :: rest →
        p = c * v)
  ∧ (∀ (kvs : List (String × PyVal)) (md pv : PyVal) (ts : Timestamp) (c v p : ℚ)
        (b ch : ℤ) (rest : List Row),
        lookupKV kvs "power" = some pv →
        store_mpp_measurement (PyVal.vDict kvs) md = Row.mpp ts c v p b ch :: rest →
        pyFloat pv = Except.ok p)
  ∧ (∀ (df out : DataFrame),
        hasAlias df powerAliases = false →
        hasAlias df currentAliases = true →
        hasAlias df voltageAliases = true →
        transform_mpp_data df = Except.ok out →
        ∃ tc cc vc pc,
          out = [("timestamp", tc), ("current", cc), ("voltage", vc), ("power", pc)] ∧
          colMul cc vc = Except.ok pc) := by
  refine ⟨?_, ?_, ?_⟩
  · intro kvs md ts c v p b ch rest hpow hcur hvol hst
    obtain ⟨kvs', hm, hrow, -⟩ := store_mpp_cons _ _ _ _ hst
    injection hm with hkv
    subst hkv
    obtain ⟨ts', c', v', p', bv, b', cv, ch', hts, hc, hv, hp, hbv, hb, hcv, hch, hr⟩ :=
      (mpp_row_eq_ok _ _ _).mp hrow
    injection hr with e1 e2 e3 e4 e5 e6
    subst e1
    subst e2
    subst e3
    subst e4
    have hd : dGetD kvs "power" (PyVal.vFloat (c * v)) = PyVal.vFloat (c * v) := by
      simp [dGetD, hpow]
    rw [hd] at hp
    injection hp with hp'
    exact hp'.symm
  · intro kvs md pv ts c v p b ch rest hpow hst
    obtain ⟨kvs', hm, hrow, -⟩ := store_mpp_cons _ _ _ _ hst
    injection hm with hkv
    subst hkv
    obtain ⟨ts', c', v', p', bv, b', cv, ch', hts, hc, hv, hp, hbv, hb, hcv, hch, hr⟩ :=
      (mpp_row_eq_ok _ _ _).mp hrow
    injection hr with e1 e2 e3 e4 e5 e6
    subst e2
    subst e3
    subst e4
    have hd : dGetD kvs "power" (PyVal.vFloat (c * v)) = pv := by
      simp [dGetD, hpow]
    rw [hd] at hp
    exact hp
  · exact transform_mpp_power_derived

/-- C2, witness: both network parts and the batch part applied at concrete
MPP inputs. -/
theorem c2_witness :
    ((6 : ℚ) = 2 * 3) ∧
    (pyFloat (PyVal.vInt 7) = Except.ok 7) ∧
    (∃ tc cc vc pc,
      ([("timestamp", Col.dts [ts0]), ("current", Col.floats [2]),
        ("voltage", Col.floats [3]), ("power", Col.floats [6])] : DataFrame)
        = [("timestamp", tc), ("current", cc), ("voltage", vc), ("power", pc)] ∧
      colMul cc vc = Except.ok pc) := by
  refine ⟨?_, ?_, ?_⟩
  · exact c2_power_defaults_to_current_times_voltage.1
      [("timestamp", PyVal.vStr "2023-09-20T12:00:00"),
       ("current", PyVal.vInt 2), ("voltage", PyVal.vInt 3)]
      (PyVal.vDict []) ts0 2 3 6 0 0 [] rfl rfl rfl (by with_unfolding_all rfl)
  · exact c2_power_defaults_to_current_times_voltage.2.1
      [("timestamp", PyVal.vStr "2023-09-20T12:00:00"),
       ("current", PyVal.vInt 2), ("voltage", PyVal.vInt 3), ("power", PyVal.vInt 7)]
      (PyVal.vDict []) (PyVal.vInt 7) ts0 2 3 7 0 0 [] rfl (by with_unfolding_all rfl)
  · exact c2_power_defaults_to_current_times_voltage.2.2
      [("Time", Col.dts [ts0]), ("I", Col.floats [2]), ("V", Col.floats [3])]
      [("timestamp", Col.dts [ts0]), ("current", Col.floats [2]),
       ("voltage", Col.floats [3]), ("power", Col.floats [6])]
      rfl rfl rfl (by with_unfolding_all rfl)

/-- C3, amended: the derivation of irradiance from raw_reading by the fixed
factor one tenth happens on the batch import path only; on the network
ingestion path a missing irradiance field is stored as 0 regardless of
raw_reading, so the original both-paths claim fails, see the
counterexample. -/
theorem c3_irradiance_derivation_paths :
    (∀ (df out : DataFrame),
        hasAlias df irrAliases = false →
        hasAlias df rawAliases = true →
        transform_irradiance_data df = Except.ok out →
        ∃ tc rc ic,
          out = [("timestamp", tc), ("raw_reading", rc), ("irradiance", ic)] ∧
          colScale rc ((1 : ℚ) / 10) = Except.ok ic)
  ∧ (∀ (kvs : List (String × PyVal)) (md : PyVal) (ts : Timestamp) (raw : ℤ)
        (irr : ℚ) (sid : PyVal) (rest : List Row),
        lookupKV kvs "irradiance" = Option.none →
        store_irradiance_measurement (PyVal.vDict kvs) md = Row.irradiance ts raw irr sid :: rest →
        irr = 0) := by
  refine ⟨transform_irr_derived, ?_⟩
  intro kvs md ts raw irr sid rest hno hst
  obtain ⟨kvs', hm, hrow, -⟩ := store_irradiance_cons _ _ _ _ hst
  injection hm with hkv
  subst hkv
  obtain ⟨ts', raw', irr', sid', hts, hraw, hirr, hsid, hr⟩ :=
    (irradiance_row_eq_ok _ _ _).mp hrow
  injection hr with e1 e2 e3 e4
  subst e3
  have hd : dGetD kvs "irradiance" (PyVal.vInt 0) = PyVal.vInt 0 := by
    simp [dGetD, hno]
  rw [hd] at hirr
  injection hirr with hirr'
  rw [← hirr']
  rfl

/-- C3, counterexample to the claim as stated: on the network path a
payload with raw_reading 900 and no irradiance field is persisted with
irradiance 0, not 90. -/
theorem c3_network_irradiance_defaults_to_zero :
    store_irradiance_measurement
      (PyVal.vDict [("timestamp", PyVal.vStr "2023-09-20T12:00:00"),
        ("raw_reading", PyVal.vInt 900)])
      (PyVal.vDict [])
    = [Row.irradiance ts0 900 0 PyVal.vNone] ∧
    (0 : ℚ) ≠ ((900 : ℤ) : ℚ) * ((1 : ℚ) / 10) := by
  constructor
  · with_unfolding_all rfl
  · norm_num

/-- C3, witness: both parts applied at concrete irradiance inputs. -/
theorem c3_witness :
    (∃ tc rc ic,
      ([("timestamp", Col.dts [ts0]), ("raw_reading", Col.ints [900]),
        ("irradiance", Col.floats [90])] : DataFrame)
        = [("timestamp", tc), ("raw_reading", rc), ("irradiance", ic)] ∧
      colScale rc ((1 : ℚ) / 10) = Except.ok ic) ∧
    (0 : ℚ) = 0 := by
  constructor
  · exact c3_irradiance_derivation_paths.1
      [("Time", Col.dts [ts0]), ("Raw", Col.ints [900])]
      [("timestamp", Col.dts [ts0]), ("raw_reading", Col.ints [900]),
       ("irradiance", Col.floats [90])]
      rfl rfl (by with_unfolding_all rfl)
  · exact c3_irradiance_derivation_paths.2
      [("timestamp", PyVal.vStr "2023-09-20T12:00:00"), ("raw_reading", PyVal.vInt 900)]
      (PyVal.vDict []) ts0 900 0 PyVal.vNone [] rfl (by with_unfolding_all rfl)
